import Mathlib

/-!
Shallow embedding of the FoodiFinder repository (TypeScript/React) in Lean 4.

Scope of the embedding, translated from the source:
* `src/types.ts` — the data model (`Coordinates`, `InfluencerData`, `ViralPost`,
  `FoodSpot`, `DiscoveryResult`).
* `src/services/geminiService.ts` — the Discovery Service: `fetchFoodSpots`
  (cache lookup, missing-credential path, upstream path with defensive
  defaulting, catch-all fallback) and the mock generator `mockSpots`.
* `src/App.tsx` — the weekly-refresh handler `handleWeeklyRefresh`.

Modelling conventions:
* JS numbers are modelled as `ℚ` (the code performs only exact decimal
  arithmetic; no claim depends on float rounding).
* Ambient effects are made explicit: the clock (`Date.now()` /
  `new Date().toISOString()`) is a `ℕ` instant `now`, `Math.random()` is a
  stream `rand : ℕ → ℚ` of values in `[0,1)` indexed by call site, the
  credential `process.env.API_KEY` is an `Option String`, and the whole
  generate-plus-JSON-parse upstream interaction is an injected
  `Except Unit RawResponse` (an `error` covers network failure and malformed
  JSON; an `ok` carries the parsed, untrusted payload).  Timestamps
  (`lastUpdated`, ISO strings in the source) are modelled by their instant.
* JS truthiness at the `||` defaulting sites is modelled exactly: `0` and
  `""` are falsy, every array (also the empty one) is truthy.
* The module-level mutable `requestCache` becomes explicit state passed in
  and returned; `fetchFoodSpots` additionally reports whether the upstream
  backend was consulted.
* Because every function below is a total Lean `def` returning a plain
  (non-`Except`) result, "never raises" facts of the source are reflected
  by construction of the types; theorems then pin down the interesting
  branch behaviour.
-/

namespace FoodiFinder

/-! ### JS primitives used by the source -/

/-- JS `s.toLowerCase()` (the source only ever lowercases ASCII). -/
def jsToLower (s : String) : String := ⟨s.data.map Char.toLower⟩

/-- JS `s.trim()`: strip whitespace from both ends. -/
def jsTrim (s : String) : String :=
  ⟨((s.data.dropWhile Char.isWhitespace).reverse.dropWhile Char.isWhitespace).reverse⟩

/-- Substring occurrence on character lists (helper for `jsIncludes`). -/
def hasSub (pat : List Char) : List Char → Bool
  | [] => pat.isEmpty
  | c :: cs => pat.isPrefixOf (c :: cs) || hasSub pat cs

/-- JS `s.includes(pat)`. -/
def jsIncludes (s pat : String) : Bool := hasSub pat.data s.data

/-- JS truthiness of a possibly-undefined string (`undefined` and `""` are
falsy).  Used for `process.env.API_KEY` and `rawData.regionName`. -/
def jsTruthyStr (v : Option String) : Bool :=
  match v with
  | none => false
  | some s => !(s == "")

/-- JS `v || d` for a possibly-undefined number: `undefined` and `0` are
falsy and select the default. -/
def jsOrNum (v : Option ℚ) (d : ℚ) : ℚ :=
  match v with
  | none => d
  | some x => if x = 0 then d else x

/-- JS `v || d` for a possibly-undefined string: `undefined` and `""` are
falsy and select the default. -/
def jsOrStr (v : Option String) (d : String) : String :=
  match v with
  | none => d
  | some s => if s = "" then d else s

/-- JS `v || d` for a possibly-undefined array: arrays are always truthy
(also `[]`), so only `undefined` selects the default. -/
def jsOrList (v : Option (List α)) (d : List α) : List α := v.getD d

/-! ### Data model (`src/types.ts`) -/

structure Coordinates where
  lat : ℚ
  lng : ℚ
deriving DecidableEq

structure InfluencerData where
  summary : String
  sourceCount : ℤ
  topMentionedBy : List String
deriving DecidableEq

structure ViralPost where
  handle : String
  caption : String
  likes : String
  imageUrl : String
  isReel : Option Bool
deriving DecidableEq

structure FoodSpot where
  id : String
  name : String
  cuisine : String
  address : String
  priceRange : String
  coordinates : Coordinates
  sentimentScore : ℚ
  trendingScore : ℚ
  popularityVelocity : ℚ
  bestDishes : List String
  description : String
  aiConfidence : ℚ
  influencerData : InfluencerData
  viralPosts : List ViralPost
  lastUpdated : ℕ
deriving DecidableEq

structure DiscoveryResult where
  spots : List FoodSpot
  center : Coordinates
  locationName : String
deriving DecidableEq

/-! ### Discovery Service (`src/services/geminiService.ts`) -/

/-- One spot record of the parsed upstream payload.  Fields that the service
maps through a `||` default are `Option`-valued; the remaining fields are
passed through unchanged by the source, so they are kept plain. -/
structure RawSpot where
  name : String
  cuisine : String
  address : String
  priceRange : String
  sentimentScore : ℚ
  trendingScore : ℚ
  popularityVelocity : ℚ
  bestDishes : List String
  description : String
  aiConfidence : ℚ
  influencerSummary : Option String
  topInfluencers : Option (List String)
  latitude : Option ℚ
  longitude : Option ℚ
  viralPosts : Option (List ViralPost)
deriving DecidableEq

/-- The parsed upstream payload envelope (`rawData` in the source; parsing
`'{}'` yields the all-`none` record). -/
structure RawResponse where
  regionName : Option String
  regionLat : Option ℚ
  regionLng : Option ℚ
  spots : Option (List RawSpot)
deriving DecidableEq

/-- The ambient environment of one `fetchFoodSpots` call. -/
structure Env where
  apiKey : Option String
  upstream : Except Unit RawResponse
  rand : ℕ → ℚ
  now : ℕ

/-- The own-property table of the module-level
`requestCache : Record<string, DiscoveryResult> = {}`.  A plain JS object
also has inherited `Object.prototype` members; those are contributed by
`jsCacheLookup` below, not by this table. -/
def RequestCache : Type := String → Option DiscoveryResult

/-- The assignment `requestCache[cacheKey] = v` (it creates an own entry). -/
def cacheInsert (c : RequestCache) (k : String) (v : DiscoveryResult) : RequestCache :=
  fun k2 => if k2 = k then some v else c k2

/-- The own-property table of the initial `{}`: no own entries (the
inherited `Object.prototype` members are modelled by `jsCacheLookup`). -/
def emptyCache : RequestCache := fun _ => none

/-- `query.toLowerCase().trim()`, the cache key. -/
def cacheKeyOf (query : String) : String := jsTrim (jsToLower query)

/-- `fetchFoodSpots`' result together with the updated cache and whether the
upstream backend was consulted. -/
structure FetchOutcome where
  res : DiscoveryResult
  requestCache : RequestCache
  upstreamCalled : Bool

/-- The synthesized id `gemini-${Date.now()}-${index}`. -/
def geminiId (t index : ℕ) : String :=
  "gemini-" ++ Nat.repr t ++ "-" ++ Nat.repr index

/-- The synthesized filler post used when `item.viralPosts` is undefined. -/
def defaultViralPost (name : String) (index : ℕ) : ViralPost where
  handle := "@foodie_explorer"
  caption := "Checking out " ++ name ++ "! The vibes are unmatched. #foodie"
  likes := "12.5k"
  imageUrl := "https://picsum.photos/seed/" ++ Nat.repr index ++ "/400/400"
  isReel := some true

/-- The per-item mapping of `spotsList.map((item, index) => ...)` in
`fetchFoodSpots`.  The two coordinate jitters and the source count consume
`Math.random()` values `rand (3*index)`, `rand (3*index+1)`, `rand (3*index+2)`. -/
def processedSpot (env : Env) (regionLat regionLng : ℚ) (index : ℕ) (item : RawSpot) :
    FoodSpot where
  id := geminiId env.now index
  name := item.name
  cuisine := item.cuisine
  address := item.address
  priceRange := item.priceRange
  coordinates :=
    { lat := jsOrNum item.latitude (regionLat + (env.rand (3 * index) * 0.02 - 0.01))
      lng := jsOrNum item.longitude (regionLng + (env.rand (3 * index + 1) * 0.02 - 0.01)) }
  sentimentScore := item.sentimentScore
  trendingScore := item.trendingScore
  popularityVelocity := item.popularityVelocity
  bestDishes := item.bestDishes
  description := item.description
  aiConfidence := item.aiConfidence
  influencerData :=
    { summary := jsOrStr item.influencerSummary "Trending on social feeds"
      sourceCount := ⌊env.rand (3 * index + 2) * 50⌋ + 10
      topMentionedBy := jsOrList item.topInfluencers [] }
  viralPosts := jsOrList item.viralPosts [defaultViralPost item.name index]
  lastUpdated := env.now

/-- Fallback Mock Data generator (`mockSpots`).  The imperative reassignment
chain over `centerLat`/`centerLng`/`locName` is rendered as one `if` chain
per variable; `seed = locName.length`. -/
def mockSpots (query : String) (lat lng : ℚ) (now : ℕ) : DiscoveryResult :=
  let q := jsToLower query
  let centerLat : ℚ :=
    if jsIncludes q "paris" then 48.8566
    else if jsIncludes q "new york" then 40.7128
    else if jsIncludes q "kochi" || query == "Kochi, Kerala" then 9.9312
    else lat
  let centerLng : ℚ :=
    if jsIncludes q "paris" then 2.3522
    else if jsIncludes q "new york" then -74.0060
    else if jsIncludes q "kochi" || query == "Kochi, Kerala" then 76.2673
    else lng
  let locName : String :=
    if jsIncludes q "paris" then "Paris, France"
    else if jsIncludes q "new york" then "New York, USA"
    else if jsIncludes q "kochi" || query == "Kochi, Kerala" then "Kochi, Kerala"
    else query
  let seed := locName.length
  let spots : List FoodSpot :=
    [ { id := "mock-1-" ++ Nat.repr seed
        name := if jsIncludes q "paris" then "Le Bistrot" else "Paragon Restaurant"
        cuisine := if jsIncludes q "paris" then "French" else "Kerala / Malabar"
        address := if jsIncludes q "paris" then "Rue de Rivoli" else "Edappally"
        priceRange := "Medium"
        coordinates := { lat := centerLat + 0.002, lng := centerLng - 0.003 }
        sentimentScore := 98
        trendingScore := 95
        popularityVelocity := 12
        bestDishes :=
          if jsIncludes q "paris" then ["Escargots", "Steak Frites"]
          else ["Fish Mango Curry", "Chicken Biryani", "Elaneer Payasam"]
        description :=
          if jsIncludes q "paris" then "Classic Parisian dining experience."
          else "Legendary culinary landmark famous for authentic Malabar biryani."
        aiConfidence := 99
        influencerData :=
          { summary := "Must-visit for authentic flavors"
            sourceCount := 540
            topMentionedBy := ["@eat_local", "@foodie_daily"] }
        viralPosts :=
          [ { handle := "@top_eats"
              caption := "The BEST in town! üçõüî• The biryani is to die for."
              likes := "45.2k"
              imageUrl := "https://images.unsplash.com/photo-1633945274405-b6c8069047b0?w=500&q=80"
              isReel := some true },
            { handle := "@travel_eats_kerala"
              caption := "Crowd is crazy but worth the wait. #paragon"
              likes := "8.1k"
              imageUrl := "https://images.unsplash.com/photo-1589302168068-964664d93dc0?w=500&q=80"
              isReel := some false } ]
        lastUpdated := now },
      { id := "mock-2-" ++ Nat.repr seed
        name := if jsIncludes q "paris" then "Cafe de Flore" else "Kashi Art Cafe"
        cuisine := "Cafe"
        address := if jsIncludes q "paris" then "Saint-Germain" else "Fort Kochi"
        priceRange := "Medium"
        coordinates := { lat := centerLat - 0.004, lng := centerLng - 0.012 }
        sentimentScore := 94
        trendingScore := 88
        popularityVelocity := 5
        bestDishes := ["Chocolate Cake", "Coffee"]
        description := "Artsy ambiance perfect for casual meetups."
        aiConfidence := 96
        influencerData :=
          { summary := "Instagrammable art spots"
            sourceCount := 320
            topMentionedBy := ["@travel_diaries"] }
        viralPosts :=
          [ { handle := "@artandfood"
              caption := "Coffee + Art = Perfect Sunday üé®‚òïÔ∏è"
              likes := "12k"
              imageUrl := "https://images.unsplash.com/photo-1554118811-1e0d58224f24?w=500&q=80"
              isReel := some false },
            { handle := "@cafe_vibes"
              caption := "This chocolate cake is illegal üç´"
              likes := "5.4k"
              imageUrl := "https://images.unsplash.com/photo-1578985545062-69928b1d9587?w=500&q=80"
              isReel := some true } ]
        lastUpdated := now },
      { id := "mock-3-" ++ Nat.repr seed
        name := if jsIncludes q "paris" then "L\x27Ambroisie" else "Grand Pavilion"
        cuisine := if jsIncludes q "paris" then "Haute Cuisine" else "Seafood"
        address := if jsIncludes q "paris" then "Place des Vosges" else "MG Road"
        priceRange := "High"
        coordinates := { lat := centerLat + 0.005, lng := centerLng + 0.002 }
        sentimentScore := 90
        trendingScore := 82
        popularityVelocity := -1
        bestDishes := ["Seafood Platter", "Signature Curry"]
        description := "Classic fine dining spot known for traditional preparation."
        aiConfidence := 92
        influencerData :=
          { summary := "Consistent quality over decades"
            sourceCount := 150
            topMentionedBy := ["@chef_fan"] }
        viralPosts :=
          [ { handle := "@fine_dining"
              caption := "Dinner date perfection. üç∑"
              likes := "8.5k"
              imageUrl := "https://images.unsplash.com/photo-1599084993091-1cb5c0721cc6?w=500&q=80"
              isReel := some false } ]
        lastUpdated := now },
      { id := "mock-4-" ++ Nat.repr seed
        name := if jsIncludes q "paris" then "Big Mamma" else "District 7 Restro Cafe"
        cuisine := "Italian/Fusion"
        address := if jsIncludes q "paris" then "Oberkampf" else "Vyttila"
        priceRange := "Medium"
        coordinates := { lat := centerLat - 0.001, lng := centerLng + 0.008 }
        sentimentScore := 88
        trendingScore := 96
        popularityVelocity := 25
        bestDishes := ["Truffle Pasta", "Loaded Burger"]
        description := "Trending spot for heavy meals and youth crowd vibes."
        aiConfidence := 85
        influencerData :=
          { summary := "Viral food challenges"
            sourceCount := 410
            topMentionedBy := ["@food_hunter"] }
        viralPosts :=
          [ { handle := "@burger_king_local"
              caption := "Can you finish this? üçîüçî"
              likes := "22k"
              imageUrl := "https://images.unsplash.com/photo-1568901346375-23c9450c58cd?w=500&q=80"
              isReel := some true },
            { handle := "@food_challenges"
              caption := "Challenge accepted! üî•"
              likes := "15k"
              imageUrl := "https://images.unsplash.com/photo-1550547660-d9450f859349?w=500&q=80"
              isReel := some true } ]
        lastUpdated := now } ]
  { spots := spots, center := { lat := centerLat, lng := centerLng }, locationName := locName }

/-- The service entry point `fetchFoodSpots`.  The `try` body's only
failure source in the model is the injected upstream interaction; the
`catch` branch routes it to `mockSpots`, mirroring the source's catch-all.
The prompt and response schema are boundary configuration of the external
call and are not part of the model.  The cache check here reads the
own-property table; `fetchFoodSpotsJs` below refines it with the prototype
chain of the plain cache object, which this check consults in the
source. -/
def fetchFoodSpots (env : Env) (requestCache : RequestCache) (query : String)
    (currentLat currentLng : ℚ) : FetchOutcome :=
  let cacheKey := cacheKeyOf query
  match requestCache cacheKey with
  | some cached => ⟨cached, requestCache, false⟩
  | none =>
    if jsTruthyStr env.apiKey = false then
      let mockResult := mockSpots query currentLat currentLng env.now
      ⟨mockResult, cacheInsert requestCache cacheKey mockResult, false⟩
    else
      match env.upstream with
      | .error _ =>
        let fallback := mockSpots query currentLat currentLng env.now
        ⟨fallback, cacheInsert requestCache cacheKey fallback, true⟩
      | .ok rawData =>
        let regionName := jsOrStr rawData.regionName query
        let regionLat := jsOrNum rawData.regionLat currentLat
        let regionLng := jsOrNum rawData.regionLng currentLng
        let spotsList := jsOrList rawData.spots []
        let processedSpots := spotsList.mapIdx (fun i item => processedSpot env regionLat regionLng i item)
        let finalResult : DiscoveryResult :=
          { spots := processedSpots
            center := { lat := regionLat, lng := regionLng }
            locationName := regionName }
        ⟨finalResult, cacheInsert requestCache cacheKey finalResult, true⟩

/-! ### The prototype chain of the cache object

`requestCache` is a plain object literal, so the unguarded indexed read
`requestCache[cacheKey]` in the source consults the JS prototype chain: for
the property names inherited from `Object.prototype` it yields a truthy
inherited member even when no own entry was ever stored, and the truthy
cache check then returns that member itself.  `fetchFoodSpots` above models
the own-property table only; `fetchFoodSpotsJs` refines it with the full
lookup semantics. -/

/-- The property names a plain object literal inherits from
`Object.prototype`; an indexed read on `{}` yields a truthy member for each
of them. -/
def objectProtoProps : List String :=
  ["constructor", "hasOwnProperty", "isPrototypeOf", "propertyIsEnumerable",
    "toLocaleString", "toString", "valueOf", "__defineGetter__",
    "__defineSetter__", "__lookupGetter__", "__lookupSetter__", "__proto__"]

/-- What the indexed read `requestCache[cacheKey]` evaluates to: the own
entry when one was stored, else the truthy inherited `Object.prototype`
member for the inherited names, else `undefined`. -/
inductive CacheLookup where
  | own (r : DiscoveryResult)
  | inherited (name : String)
  | undefinedVal
deriving DecidableEq

/-- The prototype-chain-aware cache read. -/
def jsCacheLookup (c : RequestCache) (k : String) : CacheLookup :=
  match c k with
  | some r => .own r
  | none => if k ∈ objectProtoProps then .inherited k else .undefinedVal

/-- The value the source's service actually resolves with: a
`DiscoveryResult` in the ordinary cases, but the raw inherited
`Object.prototype` member itself — not a `DiscoveryResult`, its `spots`
undefined — when the truthy cache check hits the prototype chain. -/
inductive JsResolved where
  | result (r : DiscoveryResult)
  | protoMember (name : String)
deriving DecidableEq

/-- Outcome of the prototype-chain-aware service call. -/
structure JsFetchOutcome where
  res : JsResolved
  requestCache : RequestCache
  upstreamCalled : Bool

/-- The service with the cache check modelled through the prototype chain:
`if (requestCache[cacheKey])` is truthy for an own entry and for the twelve
inherited keys (returning the looked-up value as-is); on a genuine miss the
body proceeds exactly as in `fetchFoodSpots`, whose miss path embeds the
same source lines. -/
def fetchFoodSpotsJs (env : Env) (requestCache : RequestCache) (query : String)
    (currentLat currentLng : ℚ) : JsFetchOutcome :=
  let cacheKey := cacheKeyOf query
  match jsCacheLookup requestCache cacheKey with
  | .own cached => ⟨.result cached, requestCache, false⟩
  | .inherited name => ⟨.protoMember name, requestCache, false⟩
  | .undefinedVal =>
    let o := fetchFoodSpots env requestCache query currentLat currentLng
    ⟨.result o.res, o.requestCache, o.upstreamCalled⟩

/-! ### Application state and the weekly refresh (`src/App.tsx`) -/

/-- The slice of React state relevant to the refresh action, together with
the service's cache (to express that the refresh does not touch it). -/
structure AppState where
  spots : List FoodSpot
  requestCache : RequestCache

/-- `handleWeeklyRefresh`: guard on an empty list, then perturb each spot's
`trendingScore` by `Math.floor(Math.random() * 10 - 3)` clamped at 100 and
stamp the current time.  The `i`-th iteration consumes `rand i`. -/
def handleWeeklyRefresh (rand : ℕ → ℚ) (now : ℕ) (st : AppState) : AppState :=
  if st.spots.length = 0 then st
  else
    { st with
      spots := st.spots.mapIdx fun i s =>
        { s with
          trendingScore := min 100 (s.trendingScore + ((⌊rand i * 10 - 3⌋ : ℤ) : ℚ))
          lastUpdated := now } }

/-- Id uniqueness within one `DiscoveryResult` (the invariant of claim C8). -/
def idsNodup (r : DiscoveryResult) : Prop :=
  (r.spots.map FoodSpot.id).Nodup

/-! ### Sample inputs used by concrete witness instantiations -/

/-- A constant `Math.random()` stream. -/
def sampleRand : ℕ → ℚ := fun _ => 0

/-- An environment with no credential configured. -/
def sampleEnvNoKey : Env :=
  { apiKey := none, upstream := .error (), rand := sampleRand, now := 5 }

/-- An environment whose upstream call fails (credential present). -/
def sampleEnvErr : Env :=
  { apiKey := some "k", upstream := .error (), rand := sampleRand, now := 5 }

/-- An upstream spot record with every defaulted field absent. -/
def sampleRawSpot : RawSpot :=
  { name := "Cafe A", cuisine := "Cafe", address := "Street 1", priceRange := "Low"
    sentimentScore := 80, trendingScore := 70, popularityVelocity := 1
    bestDishes := ["Tea"], description := "Calm.", aiConfidence := 90
    influencerSummary := none, topInfluencers := none
    latitude := none, longitude := none, viralPosts := none }

/-- An upstream payload with two spot records. -/
def sampleRaw : RawResponse :=
  { regionName := some "Testville", regionLat := some 10, regionLng := some 20
    spots := some [sampleRawSpot, { sampleRawSpot with name := "Cafe B" }] }

/-- An environment with a credential and a successful upstream call. -/
def sampleEnvKey : Env :=
  { apiKey := some "k", upstream := .ok sampleRaw, rand := sampleRand, now := 7 }

/-- An upstream payload whose region fields are all falsy (`0` / `""`) and
whose single spot has exact-zero coordinates. -/
def sampleRawZero : RawResponse :=
  { regionName := some "", regionLat := some 0, regionLng := some 0
    spots := some [{ sampleRawSpot with latitude := some 0, longitude := some 0 }] }

/-- An environment delivering `sampleRawZero`. -/
def sampleEnvZero : Env :=
  { apiKey := some "k", upstream := .ok sampleRawZero, rand := sampleRand, now := 7 }

/-- A held spot as produced by earlier discovery, for refresh scenarios. -/
def sampleSpot : FoodSpot :=
  { id := "mock-1-7", name := "Paragon Restaurant", cuisine := "Kerala / Malabar"
    address := "Edappally", priceRange := "Medium"
    coordinates := { lat := 9, lng := 76 }
    sentimentScore := 98, trendingScore := 50, popularityVelocity := 12
    bestDishes := ["Chicken Biryani"], description := "Landmark.", aiConfidence := 99
    influencerData := { summary := "s", sourceCount := 540, topMentionedBy := [] }
    viralPosts := [], lastUpdated := 0 }

/-- App state holding one spot. -/
def sampleState : AppState :=
  { spots := [sampleSpot], requestCache := emptyCache }

/-- A `Math.random()` stream returning `0.9`, a legal value that makes the
refresh delta reach `+6`. -/
def cexRand : ℕ → ℚ := fun _ => 9 / 10

/-! ### Decimal numerals: `Nat.repr` is injective -/

/-- Numeric value of one decimal digit character. -/
def digitVal (c : Char) : ℕ := c.toNat - 48

/-- Value of a big-endian digit-character list, on top of accumulator `a`. -/
def digitsVal (a : ℕ) (l : List Char) : ℕ :=
  l.foldl (fun acc c => 10 * acc + digitVal c) a

theorem digitVal_digitChar : ∀ n < 10, digitVal (Nat.digitChar n) = n := by decide

theorem digitsVal_toDigitsCore :
    ∀ (fuel n : ℕ) (ds : List Char), n < 10 ^ fuel →
      digitsVal 0 (Nat.toDigitsCore 10 fuel n ds) = digitsVal n ds := by
  intro fuel
  induction fuel with
  | zero =>
    intro n ds h
    simp only [pow_zero, Nat.lt_one_iff] at h
    subst h
    rfl
  | succ f ih =>
    intro n ds h
    rw [Nat.toDigitsCore]
    by_cases h0 : n / 10 = 0
    · rw [if_pos h0]
      have hstep : digitsVal 0 (Nat.digitChar (n % 10) :: ds) =
          digitsVal (10 * 0 + digitVal (Nat.digitChar (n % 10))) ds := rfl
      rw [hstep, digitVal_digitChar (n % 10) (Nat.mod_lt n (by norm_num)),
        show 10 * 0 + n % 10 = n by omega]
    · rw [if_neg h0]
      have hlt : n / 10 < 10 ^ f := by
        rw [Nat.div_lt_iff_lt_mul (by norm_num : 0 < 10)]
        calc n < 10 ^ (f + 1) := h
        _ = 10 ^ f * 10 := pow_succ 10 f
      rw [ih (n / 10) (Nat.digitChar (n % 10) :: ds) hlt]
      have hstep : digitsVal (n / 10) (Nat.digitChar (n % 10) :: ds) =
          digitsVal (10 * (n / 10) + digitVal (Nat.digitChar (n % 10))) ds := rfl
      rw [hstep, digitVal_digitChar (n % 10) (Nat.mod_lt n (by norm_num)),
        show 10 * (n / 10) + n % 10 = n by omega]

theorem digitsVal_repr (n : ℕ) : digitsVal 0 (Nat.repr n).data = n := by
  have h2 : n < 2 ^ n := Nat.lt_two_pow n
  have h : n < 10 ^ (n + 1) :=
    lt_of_lt_of_le h2 (le_trans (Nat.pow_le_pow_left (by norm_num) n)
      (Nat.pow_le_pow_right (by norm_num) (Nat.le_succ n)))
  show digitsVal 0 (Nat.toDigitsCore 10 (n + 1) n []) = n
  rw [digitsVal_toDigitsCore (n + 1) n [] h]
  rfl

theorem nat_repr_injective : Function.Injective Nat.repr := by
  intro m n h
  have hm := digitsVal_repr m
  rw [h, digitsVal_repr] at hm
  exact hm.symm

/-! ### Id distinctness lemmas -/

theorem geminiId_inj (t : ℕ) : Function.Injective (geminiId t) := by
  intro i j h
  apply nat_repr_injective
  apply String.ext
  have hd := congrArg String.data h
  simp only [geminiId, String.data_append, List.append_assoc] at hd
  exact List.append_cancel_left (List.append_cancel_left (List.append_cancel_left hd))

theorem append_right_ne (p1 p2 s : String) (hne : p1.data ≠ p2.data) :
    p1 ++ s ≠ p2 ++ s := by
  intro h
  have hd := congrArg String.data h
  simp only [String.data_append] at hd
  exact hne (List.append_cancel_right hd)

theorem mockIds_nodup (s : String) :
    (["mock-1-" ++ s, "mock-2-" ++ s, "mock-3-" ++ s, "mock-4-" ++ s] : List String).Nodup := by
  have h12 := append_right_ne "mock-1-" "mock-2-" s (by decide)
  have h13 := append_right_ne "mock-1-" "mock-3-" s (by decide)
  have h14 := append_right_ne "mock-1-" "mock-4-" s (by decide)
  have h23 := append_right_ne "mock-2-" "mock-3-" s (by decide)
  have h24 := append_right_ne "mock-2-" "mock-4-" s (by decide)
  have h34 := append_right_ne "mock-3-" "mock-4-" s (by decide)
  simp [List.nodup_cons, h12, h13, h14, h23, h24, h34]

theorem mockSpots_idsNodup (query : String) (lat lng : ℚ) (now : ℕ) :
    idsNodup (mockSpots query lat lng now) :=
  mockIds_nodup (Nat.repr (mockSpots query lat lng now).locationName.length)

theorem processed_idsNodup (env : Env) (rLat rLng : ℚ) (l : List RawSpot) :
    ((l.mapIdx fun i item => processedSpot env rLat rLng i item).map FoodSpot.id).Nodup := by
  rw [List.mapIdx_eq_enum_map, List.map_map]
  have hf : (FoodSpot.id ∘ Function.uncurry fun i item => processedSpot env rLat rLng i item) =
      geminiId env.now ∘ Prod.fst := by
    funext p
    rfl
  rw [hf, ← List.map_map]
  exact (List.nodup_enum_map_fst l).map (geminiId_inj env.now)

/-- C8: in every `DiscoveryResult` produced by `fetchFoodSpots` (upstream
path or mock path), the ids of the returned `FoodSpot`s are pairwise
distinct, provided every result already held in the cache satisfies the
same invariant (the cache is only ever populated by `fetchFoodSpots`). -/
theorem fetchFoodSpots_ids_unique (env : Env) (cache : RequestCache) (query : String)
    (a b : ℚ) (hcache : ∀ k r, cache k = some r → idsNodup r) :
    idsNodup (fetchFoodSpots env cache query a b).res := by
  unfold fetchFoodSpots
  cases hq : cache (cacheKeyOf query) with
  | some cached =>
    simp only [hq]
    exact hcache _ _ hq
  | none =>
    simp only [hq]
    by_cases hk : jsTruthyStr env.apiKey = false
    · rw [if_pos hk]
      exact mockSpots_idsNodup query a b env.now
    · rw [if_neg hk]
      cases env.upstream with
      | error e =>
        exact mockSpots_idsNodup query a b env.now
      | ok raw =>
        exact processed_idsNodup env _ _ _

/-- Witness for C8 at a concrete input: the query "kochi" against the
credential-free environment and the empty cache (which trivially satisfies
the cache invariant) yields a result with pairwise-distinct ids. -/
theorem fetchFoodSpots_ids_unique_witness :
    idsNodup (fetchFoodSpots sampleEnvNoKey emptyCache "kochi" 9.9312 76.2673).res :=
  fetchFoodSpots_ids_unique sampleEnvNoKey emptyCache "kochi" 9.9312 76.2673
    (fun _ _ h => nomatch h)

/-! ### C1: totality and fallback -/

/-- Fallback behaviour of the own-property service model: on a cache miss
with a missing credential, or with a failing upstream interaction, the
result is exactly the Mock Data Generator's output, whose spot list is
non-empty.  (Helper for the claim theorem below, which adds the prototype
chain.) -/
theorem fetchFoodSpots_total_fallback (env : Env) (cache : RequestCache) (query : String)
    (a b : ℚ) (hmiss : cache (cacheKeyOf query) = none)
    (hfail : jsTruthyStr env.apiKey = false ∨ ∃ e, env.upstream = Except.error e) :
    (fetchFoodSpots env cache query a b).res = mockSpots query a b env.now ∧
      (fetchFoodSpots env cache query a b).res.spots ≠ [] := by
  have hres : (fetchFoodSpots env cache query a b).res = mockSpots query a b env.now := by
    unfold fetchFoodSpots
    simp only [hmiss]
    by_cases hk : jsTruthyStr env.apiKey = false
    · rw [if_pos hk]
    · rw [if_neg hk]
      rcases hfail with hk2 | ⟨e, he⟩
      · exact absurd hk2 hk
      · rw [he]
  refine ⟨hres, ?_⟩
  rw [hres]
  show _ :: _ ≠ []
  exact List.cons_ne_nil _ _

/-- Counterexample to C1 as stated: the query "constructor" — a fixed point
of the cache-key normalization — makes the unguarded truthy cache check
`if (requestCache[cacheKey])` hit the inherited `Object.prototype` member
on the very first call: with no credential configured and a fresh cache,
the service resolves with the raw inherited member, which is not a
`DiscoveryResult` (its `spots` is undefined) — in particular not the mock
fallback the claim promises. -/
theorem fetchFoodSpots_proto_key_counterexample :
    cacheKeyOf "constructor" = "constructor" ∧
      emptyCache "constructor" = none ∧
      jsTruthyStr sampleEnvNoKey.apiKey = false ∧
      (fetchFoodSpotsJs sampleEnvNoKey emptyCache "constructor" 1 2).res =
        JsResolved.protoMember "constructor" ∧
      ∀ r : DiscoveryResult,
        (fetchFoodSpotsJs sampleEnvNoKey emptyCache "constructor" 1 2).res ≠
          JsResolved.result r :=
  ⟨by decide, rfl, rfl, rfl, fun _ h => nomatch h⟩

/-- C1 (amended): for every query whose normalized cache key is not an
inherited `Object.prototype` property name, `fetchFoodSpots` never raises:
the prototype-chain-aware service resolves with a genuine
`DiscoveryResult` on every such input, and on a cache miss it falls back to
the Mock Data Generator's output — whose spot list is non-empty — both when
the credential is absent and when the upstream interaction fails.  (For the
twelve excluded queries, such as "constructor" or "__proto__", the source
instead returns the truthy inherited member itself; see the
counterexample.) -/
theorem fetchFoodSpotsJs_total_fallback (env : Env) (cache : RequestCache)
    (query : String) (a b : ℚ) (hp : cacheKeyOf query ∉ objectProtoProps) :
    (∃ r : DiscoveryResult,
        (fetchFoodSpotsJs env cache query a b).res = JsResolved.result r) ∧
      (cache (cacheKeyOf query) = none →
        (jsTruthyStr env.apiKey = false ∨ ∃ e, env.upstream = Except.error e) →
        (fetchFoodSpotsJs env cache query a b).res =
            JsResolved.result (mockSpots query a b env.now) ∧
          (mockSpots query a b env.now).spots ≠ []) := by
  unfold fetchFoodSpotsJs jsCacheLookup
  cases hq : cache (cacheKeyOf query) with
  | some cached =>
    simp only [hq]
    refine ⟨⟨cached, rfl⟩, ?_⟩
    intro hmiss _
    exact Option.noConfusion hmiss
  | none =>
    simp only [hq]
    rw [if_neg hp]
    refine ⟨⟨(fetchFoodSpots env cache query a b).res, rfl⟩, ?_⟩
    intro _ hfail
    have h := fetchFoodSpots_total_fallback env cache query a b hq hfail
    refine ⟨congrArg JsResolved.result h.1, ?_⟩
    rw [← h.1]
    exact h.2

/-- Witness for C1 (amended): the ordinary query "Tokyo" on the empty cache
with no credential, with the inner cache-miss and missing-credential
hypotheses discharged as well. -/
theorem fetchFoodSpotsJs_total_fallback_witness :
    cacheKeyOf "Tokyo" ∉ objectProtoProps ∧
      (∃ r : DiscoveryResult,
        (fetchFoodSpotsJs sampleEnvNoKey emptyCache "Tokyo" 1 2).res =
          JsResolved.result r) ∧
      (fetchFoodSpotsJs sampleEnvNoKey emptyCache "Tokyo" 1 2).res =
        JsResolved.result (mockSpots "Tokyo" 1 2 sampleEnvNoKey.now) ∧
      (mockSpots "Tokyo" 1 2 sampleEnvNoKey.now).spots ≠ [] :=
  ⟨by decide,
    (fetchFoodSpotsJs_total_fallback sampleEnvNoKey emptyCache "Tokyo" 1 2
      (by decide)).1,
    ((fetchFoodSpotsJs_total_fallback sampleEnvNoKey emptyCache "Tokyo" 1 2
      (by decide)).2 rfl (Or.inl rfl)).1,
    ((fetchFoodSpotsJs_total_fallback sampleEnvNoKey emptyCache "Tokyo" 1 2
      (by decide)).2 rfl (Or.inl rfl)).2⟩

/-! ### C2: cache idempotence -/

theorem fetch_cache_hit (env : Env) (cache : RequestCache) (query : String) (a b : ℚ)
    (r : DiscoveryResult) (h : cache (cacheKeyOf query) = some r) :
    fetchFoodSpots env cache query a b = ⟨r, cache, false⟩ := by
  unfold fetchFoodSpots
  simp only [h]

theorem fetch_caches_own_result (env : Env) (cache : RequestCache) (query : String)
    (a b : ℚ) :
    (fetchFoodSpots env cache query a b).requestCache (cacheKeyOf query) =
      some (fetchFoodSpots env cache query a b).res := by
  unfold fetchFoodSpots
  cases hq : cache (cacheKeyOf query) with
  | some cached => simp only [hq]
  | none =>
    simp only [hq]
    by_cases hk : jsTruthyStr env.apiKey = false
    · rw [if_pos hk]
      simp [cacheInsert]
    · rw [if_neg hk]
      cases env.upstream with
      | error e => simp [cacheInsert]
      | ok raw => simp [cacheInsert]

/-- C2: calling the service twice with query strings that agree after
case-folding and trimming returns, on the second call, exactly the first
call's result — no matter the second call's coordinates or environment
(hence with no second upstream call, also reported by the `upstreamCalled`
flag) — and leaves the cache unchanged. -/
theorem fetchFoodSpots_cache_idempotent (env1 env2 : Env) (cache : RequestCache)
    (q1 q2 : String) (a b c d : ℚ) (hq : cacheKeyOf q1 = cacheKeyOf q2) :
    (fetchFoodSpots env2 (fetchFoodSpots env1 cache q1 a b).requestCache q2 c d).res =
        (fetchFoodSpots env1 cache q1 a b).res ∧
      (fetchFoodSpots env2 (fetchFoodSpots env1 cache q1 a b).requestCache q2 c d).requestCache =
        (fetchFoodSpots env1 cache q1 a b).requestCache ∧
      (fetchFoodSpots env2 (fetchFoodSpots env1 cache q1 a b).requestCache q2 c d).upstreamCalled =
        false := by
  have hhit : (fetchFoodSpots env1 cache q1 a b).requestCache (cacheKeyOf q2) =
      some (fetchFoodSpots env1 cache q1 a b).res := by
    rw [← hq]
    exact fetch_caches_own_result env1 cache q1 a b
  rw [fetch_cache_hit env2 _ q2 c d _ hhit]
  exact ⟨rfl, rfl, rfl⟩

/-- Witness for C2: `fetchFoodSpots "Paris"` then `fetchFoodSpots "  PARIS "`
with different coordinates and a different environment returns the first
result without consulting upstream. -/
theorem fetchFoodSpots_cache_idempotent_witness :
    cacheKeyOf "Paris" = cacheKeyOf "  PARIS " ∧
      ((fetchFoodSpots sampleEnvErr
            (fetchFoodSpots sampleEnvNoKey emptyCache "Paris" 1 2).requestCache
            "  PARIS " 3 4).res =
          (fetchFoodSpots sampleEnvNoKey emptyCache "Paris" 1 2).res ∧
        (fetchFoodSpots sampleEnvErr
            (fetchFoodSpots sampleEnvNoKey emptyCache "Paris" 1 2).requestCache
            "  PARIS " 3 4).requestCache =
          (fetchFoodSpots sampleEnvNoKey emptyCache "Paris" 1 2).requestCache ∧
        (fetchFoodSpots sampleEnvErr
            (fetchFoodSpots sampleEnvNoKey emptyCache "Paris" 1 2).requestCache
            "  PARIS " 3 4).upstreamCalled = false) :=
  ⟨by decide,
    fetchFoodSpots_cache_idempotent sampleEnvNoKey sampleEnvErr emptyCache
      "Paris" "  PARIS " 1 2 3 4 (by decide)⟩

/-! ### C3: the weekly refresh -/

theorem handleWeeklyRefresh_zero (rand : ℕ → ℚ) (now : ℕ) (st : AppState)
    (hemp : st.spots.length = 0) : handleWeeklyRefresh rand now st = st := by
  unfold handleWeeklyRefresh
  rw [if_pos hemp]

theorem handleWeeklyRefresh_requestCache (rand : ℕ → ℚ) (now : ℕ) (st : AppState) :
    (handleWeeklyRefresh rand now st).requestCache = st.requestCache := by
  unfold handleWeeklyRefresh
  split <;> rfl

theorem handleWeeklyRefresh_spots_pos (rand : ℕ → ℚ) (now : ℕ) (st : AppState)
    (hemp : ¬st.spots.length = 0) :
    (handleWeeklyRefresh rand now st).spots = st.spots.mapIdx fun i s =>
      { s with
        trendingScore := min 100 (s.trendingScore + ((⌊rand i * 10 - 3⌋ : ℤ) : ℚ))
        lastUpdated := now } := by
  unfold handleWeeklyRefresh
  rw [if_neg hemp]

/-- Counterexample to C3 as stated: `Math.floor(Math.random() * 10 - 3)`
ranges over `-3..6`, not `±3`.  With the legal draw `0.9` the refresh moves
a held trending score of `50` to `56`, a change of `+6`. -/
theorem handleWeeklyRefresh_pm3_counterexample :
    (0 ≤ cexRand 0 ∧ cexRand 0 < 1) ∧
      sampleState.spots.map FoodSpot.trendingScore = [50] ∧
      (handleWeeklyRefresh cexRand 1 sampleState).spots.map FoodSpot.trendingScore = [56] ∧
      ¬((56 : ℚ) - 50 ≤ 3) := by
  have hval : min (100 : ℚ) (50 + ((⌊cexRand 0 * 10 - 3⌋ : ℤ) : ℚ)) = 56 := by
    rw [show (cexRand 0 * 10 - 3 : ℚ) = ((6 : ℤ) : ℚ) by norm_num [cexRand],
      Int.floor_intCast]
    norm_num
  refine ⟨⟨by norm_num [cexRand], by norm_num [cexRand]⟩, rfl, ?_, by norm_num⟩
  have hmap : (handleWeeklyRefresh cexRand 1 sampleState).spots.map FoodSpot.trendingScore =
      [min 100 (50 + ((⌊cexRand 0 * 10 - 3⌋ : ℤ) : ℚ))] := rfl
  rw [hmap, hval]

/-- C3 (amended): invoking the weekly refresh at an instant strictly later
than every held spot's `lastUpdated` yields exactly as many spots as held,
each with a strictly greater `lastUpdated` and a `trendingScore` equal to
the prior value shifted by an integer delta in `-3..6` (the range of
`Math.floor(Math.random() * 10 - 3)` over `[0,1)` draws), clamped to at
most 100. -/
theorem handleWeeklyRefresh_refresh_spec (rand : ℕ → ℚ) (now : ℕ) (st : AppState)
    (hr : ∀ i, 0 ≤ rand i ∧ rand i < 1)
    (ht : ∀ s ∈ st.spots, s.lastUpdated < now) :
    (handleWeeklyRefresh rand now st).spots.length = st.spots.length ∧
      ∀ (i : ℕ) (h : i < st.spots.length)
        (h' : i < (handleWeeklyRefresh rand now st).spots.length),
        (st.spots.get ⟨i, h⟩).lastUpdated <
            ((handleWeeklyRefresh rand now st).spots.get ⟨i, h'⟩).lastUpdated ∧
          ((handleWeeklyRefresh rand now st).spots.get ⟨i, h'⟩).trendingScore ≤ 100 ∧
          ∃ d : ℤ, -3 ≤ d ∧ d ≤ 6 ∧
            ((handleWeeklyRefresh rand now st).spots.get ⟨i, h'⟩).trendingScore =
              min 100 ((st.spots.get ⟨i, h⟩).trendingScore + d) := by
  by_cases hemp : st.spots.length = 0
  · rw [handleWeeklyRefresh_zero rand now st hemp]
    exact ⟨rfl, fun i h h' => absurd h (by omega)⟩
  · rw [handleWeeklyRefresh_spots_pos rand now st hemp]
    refine ⟨List.length_mapIdx .., ?_⟩
    intro i h h'
    rw [List.get_mapIdx st.spots _ i h]
    refine ⟨ht _ (List.get_mem st.spots i h), min_le_left _ _, ⌊rand i * 10 - 3⌋, ?_, ?_, rfl⟩
    · apply Int.le_floor.mpr
      push_cast
      nlinarith [(hr i).1]
    · have h7 : ⌊rand i * 10 - 3⌋ < 7 := by
        apply Int.floor_lt.mpr
        push_cast
        nlinarith [(hr i).2]
      omega

/-- Witness for C3 (amended) at a concrete one-spot state with the
constant-zero random stream and refresh instant 1, instantiated at spot 0. -/
theorem handleWeeklyRefresh_refresh_spec_witness :
    (handleWeeklyRefresh sampleRand 1 sampleState).spots.length =
        sampleState.spots.length ∧
      (sampleState.spots.get ⟨0, by decide⟩).lastUpdated <
        ((handleWeeklyRefresh sampleRand 1 sampleState).spots.get ⟨0, by decide⟩).lastUpdated ∧
      ((handleWeeklyRefresh sampleRand 1 sampleState).spots.get ⟨0, by decide⟩).trendingScore ≤
        100 ∧
      ∃ d : ℤ, -3 ≤ d ∧ d ≤ 6 ∧
        ((handleWeeklyRefresh sampleRand 1 sampleState).spots.get ⟨0, by decide⟩).trendingScore =
          min 100 ((sampleState.spots.get ⟨0, by decide⟩).trendingScore + d) :=
  ⟨(handleWeeklyRefresh_refresh_spec sampleRand 1 sampleState
      (fun _ => ⟨le_refl 0, by norm_num [sampleRand]⟩)
      (fun s hs => by rw [List.mem_singleton.mp hs]; norm_num [sampleSpot])).1,
    (handleWeeklyRefresh_refresh_spec sampleRand 1 sampleState
      (fun _ => ⟨le_refl 0, by norm_num [sampleRand]⟩)
      (fun s hs => by rw [List.mem_singleton.mp hs]; norm_num [sampleSpot])).2
      0 (by decide) (by decide)⟩

/-! ### C9: the refresh's frame -/

/-- C9: the weekly refresh modifies only `trendingScore` and `lastUpdated`:
the spot count and every other field of every spot are unchanged, and the
Discovery Service's request cache is untouched (the handler never calls
`fetchFoodSpots`; in the embedding the cache component of the state is
returned as it was). -/
theorem handleWeeklyRefresh_frame (rand : ℕ → ℚ) (now : ℕ) (st : AppState) :
    (handleWeeklyRefresh rand now st).requestCache = st.requestCache ∧
      (handleWeeklyRefresh rand now st).spots.length = st.spots.length ∧
      ∀ (i : ℕ) (h : i < st.spots.length)
        (h' : i < (handleWeeklyRefresh rand now st).spots.length),
        ((handleWeeklyRefresh rand now st).spots.get ⟨i, h'⟩).id =
            (st.spots.get ⟨i, h⟩).id ∧
          ((handleWeeklyRefresh rand now st).spots.get ⟨i, h'⟩).name =
            (st.spots.get ⟨i, h⟩).name ∧
          ((handleWeeklyRefresh rand now st).spots.get ⟨i, h'⟩).cuisine =
            (st.spots.get ⟨i, h⟩).cuisine ∧
          ((handleWeeklyRefresh rand now st).spots.get ⟨i, h'⟩).address =
            (st.spots.get ⟨i, h⟩).address ∧
          ((handleWeeklyRefresh rand now st).spots.get ⟨i, h'⟩).priceRange =
            (st.spots.get ⟨i, h⟩).priceRange ∧
          ((handleWeeklyRefresh rand now st).spots.get ⟨i, h'⟩).coordinates =
            (st.spots.get ⟨i, h⟩).coordinates ∧
          ((handleWeeklyRefresh rand now st).spots.get ⟨i, h'⟩).sentimentScore =
            (st.spots.get ⟨i, h⟩).sentimentScore ∧
          ((handleWeeklyRefresh rand now st).spots.get ⟨i, h'⟩).popularityVelocity =
            (st.spots.get ⟨i, h⟩).popularityVelocity ∧
          ((handleWeeklyRefresh rand now st).spots.get ⟨i, h'⟩).bestDishes =
            (st.spots.get ⟨i, h⟩).bestDishes ∧
          ((handleWeeklyRefresh rand now st).spots.get ⟨i, h'⟩).description =
            (st.spots.get ⟨i, h⟩).description ∧
          ((handleWeeklyRefresh rand now st).spots.get ⟨i, h'⟩).aiConfidence =
            (st.spots.get ⟨i, h⟩).aiConfidence ∧
          ((handleWeeklyRefresh rand now st).spots.get ⟨i, h'⟩).influencerData =
            (st.spots.get ⟨i, h⟩).influencerData ∧
          ((handleWeeklyRefresh rand now st).spots.get ⟨i, h'⟩).viralPosts =
            (st.spots.get ⟨i, h⟩).viralPosts := by
  by_cases hemp : st.spots.length = 0
  · rw [handleWeeklyRefresh_zero rand now st hemp]
    exact ⟨rfl, rfl, fun i h h' => absurd h (by omega)⟩
  · rw [handleWeeklyRefresh_requestCache rand now st,
      handleWeeklyRefresh_spots_pos rand now st hemp]
    refine ⟨rfl, List.length_mapIdx .., ?_⟩
    intro i h h'
    rw [List.get_mapIdx st.spots _ i h]
    exact ⟨rfl, rfl, rfl, rfl, rfl, rfl, rfl, rfl, rfl, rfl, rfl, rfl, rfl⟩

/-- Witness for C9 at the concrete one-spot state, instantiated at spot 0. -/
theorem handleWeeklyRefresh_frame_witness :
    (handleWeeklyRefresh cexRand 3 sampleState).requestCache = sampleState.requestCache ∧
      (handleWeeklyRefresh cexRand 3 sampleState).spots.length = sampleState.spots.length ∧
      ((handleWeeklyRefresh cexRand 3 sampleState).spots.get ⟨0, by decide⟩).id =
          (sampleState.spots.get ⟨0, by decide⟩).id ∧
        ((handleWeeklyRefresh cexRand 3 sampleState).spots.get ⟨0, by decide⟩).name =
          (sampleState.spots.get ⟨0, by decide⟩).name ∧
        ((handleWeeklyRefresh cexRand 3 sampleState).spots.get ⟨0, by decide⟩).cuisine =
          (sampleState.spots.get ⟨0, by decide⟩).cuisine ∧
        ((handleWeeklyRefresh cexRand 3 sampleState).spots.get ⟨0, by decide⟩).address =
          (sampleState.spots.get ⟨0, by decide⟩).address ∧
        ((handleWeeklyRefresh cexRand 3 sampleState).spots.get ⟨0, by decide⟩).priceRange =
          (sampleState.spots.get ⟨0, by decide⟩).priceRange ∧
        ((handleWeeklyRefresh cexRand 3 sampleState).spots.get ⟨0, by decide⟩).coordinates =
          (sampleState.spots.get ⟨0, by decide⟩).coordinates ∧
        ((handleWeeklyRefresh cexRand 3 sampleState).spots.get ⟨0, by decide⟩).sentimentScore =
          (sampleState.spots.get ⟨0, by decide⟩).sentimentScore ∧
        ((handleWeeklyRefresh cexRand 3 sampleState).spots.get
              ⟨0, by decide⟩).popularityVelocity =
          (sampleState.spots.get ⟨0, by decide⟩).popularityVelocity ∧
        ((handleWeeklyRefresh cexRand 3 sampleState).spots.get ⟨0, by decide⟩).bestDishes =
          (sampleState.spots.get ⟨0, by decide⟩).bestDishes ∧
        ((handleWeeklyRefresh cexRand 3 sampleState).spots.get ⟨0, by decide⟩).description =
          (sampleState.spots.get ⟨0, by decide⟩).description ∧
        ((handleWeeklyRefresh cexRand 3 sampleState).spots.get ⟨0, by decide⟩).aiConfidence =
          (sampleState.spots.get ⟨0, by decide⟩).aiConfidence ∧
        ((handleWeeklyRefresh cexRand 3 sampleState).spots.get ⟨0, by decide⟩).influencerData =
          (sampleState.spots.get ⟨0, by decide⟩).influencerData ∧
        ((handleWeeklyRefresh cexRand 3 sampleState).spots.get ⟨0, by decide⟩).viralPosts =
          (sampleState.spots.get ⟨0, by decide⟩).viralPosts :=
  ⟨(handleWeeklyRefresh_frame cexRand 3 sampleState).1,
    (handleWeeklyRefresh_frame cexRand 3 sampleState).2.1,
    (handleWeeklyRefresh_frame cexRand 3 sampleState).2.2 0 (by decide) (by decide)⟩

/-! ### Reduction lemmas for the service's branches -/

theorem fetch_res_nokey (env : Env) (cache : RequestCache) (query : String) (a b : ℚ)
    (hmiss : cache (cacheKeyOf query) = none) (hk : jsTruthyStr env.apiKey = false) :
    (fetchFoodSpots env cache query a b).res = mockSpots query a b env.now := by
  unfold fetchFoodSpots
  simp only [hmiss]
  rw [if_pos hk]

theorem fetch_res_ok_spots (env : Env) (cache : RequestCache) (query : String) (a b : ℚ)
    (raw : RawResponse) (hmiss : cache (cacheKeyOf query) = none)
    (hk : jsTruthyStr env.apiKey = true) (hu : env.upstream = Except.ok raw) :
    (fetchFoodSpots env cache query a b).res.spots =
      (jsOrList raw.spots []).mapIdx fun i item =>
        processedSpot env (jsOrNum raw.regionLat a) (jsOrNum raw.regionLng b) i item := by
  unfold fetchFoodSpots
  simp only [hmiss]
  rw [if_neg (by simp [hk]), hu]

theorem fetch_res_ok_center (env : Env) (cache : RequestCache) (query : String) (a b : ℚ)
    (raw : RawResponse) (hmiss : cache (cacheKeyOf query) = none)
    (hk : jsTruthyStr env.apiKey = true) (hu : env.upstream = Except.ok raw) :
    (fetchFoodSpots env cache query a b).res.center =
      { lat := jsOrNum raw.regionLat a, lng := jsOrNum raw.regionLng b } := by
  unfold fetchFoodSpots
  simp only [hmiss]
  rw [if_neg (by simp [hk]), hu]

theorem fetch_res_ok_locationName (env : Env) (cache : RequestCache) (query : String)
    (a b : ℚ) (raw : RawResponse) (hmiss : cache (cacheKeyOf query) = none)
    (hk : jsTruthyStr env.apiKey = true) (hu : env.upstream = Except.ok raw) :
    (fetchFoodSpots env cache query a b).res.locationName = jsOrStr raw.regionName query := by
  unfold fetchFoodSpots
  simp only [hmiss]
  rw [if_neg (by simp [hk]), hu]

theorem processedSpot_viralPosts (env : Env) (rLat rLng : ℚ) (i : ℕ) (item : RawSpot) :
    (processedSpot env rLat rLng i item).viralPosts =
      jsOrList item.viralPosts [defaultViralPost item.name i] := rfl

theorem processedSpot_lat (env : Env) (rLat rLng : ℚ) (i : ℕ) (item : RawSpot) :
    (processedSpot env rLat rLng i item).coordinates.lat =
      jsOrNum item.latitude (rLat + (env.rand (3 * i) * 0.02 - 0.01)) := rfl

theorem processedSpot_lng (env : Env) (rLat rLng : ℚ) (i : ℕ) (item : RawSpot) :
    (processedSpot env rLat rLng i item).coordinates.lng =
      jsOrNum item.longitude (rLng + (env.rand (3 * i + 1) * 0.02 - 0.01)) := rfl

/-! ### C4: reproducibility of the mock generator -/

/-- Counterexample to C4 as stated: two `mockSpots` calls with the same
query text and the same fallback coordinates, made at different instants,
do not agree in every field — each call stamps the ambient clock into the
spots' `lastUpdated`. -/
theorem mockSpots_reproducible_counterexample :
    mockSpots "Tokyo" 1 2 0 ≠ mockSpots "Tokyo" 1 2 1 ∧
      (mockSpots "Tokyo" 1 2 0).spots.map FoodSpot.lastUpdated = [0, 0, 0, 0] ∧
      (mockSpots "Tokyo" 1 2 1).spots.map FoodSpot.lastUpdated = [1, 1, 1, 1] := by
  refine ⟨?_, rfl, rfl⟩
  intro h
  have h2 : ([0, 0, 0, 0] : List ℕ) = [1, 1, 1, 1] :=
    congrArg (fun r => r.spots.map FoodSpot.lastUpdated) h
  exact absurd h2 (by decide)

/-- C4 (amended): the Mock Data Generator is reproducible up to the clock —
any two calls with the same query text and the same fallback coordinates
agree on the location name, the center, and every spot field other than the
`lastUpdated` timestamp (which records the instant of the call); two calls
at the same instant agree exactly. -/
theorem mockSpots_reproducible (query : String) (lat lng : ℚ) (t1 t2 : ℕ) :
    (mockSpots query lat lng t1).locationName = (mockSpots query lat lng t2).locationName ∧
      (mockSpots query lat lng t1).center = (mockSpots query lat lng t2).center ∧
      (mockSpots query lat lng t1).spots.map (fun s => { s with lastUpdated := 0 }) =
        (mockSpots query lat lng t2).spots.map (fun s => { s with lastUpdated := 0 }) :=
  ⟨rfl, rfl, rfl⟩

/-! ### C5: defensive defaulting of `viralPosts` -/

/-- C5: on the upstream path, a spot record whose `viralPosts` field is
missing receives exactly the one-element synthesized filler list — in
particular a non-empty one; by the embedding's types no returned `FoodSpot`
ever lacks a `viralPosts` list, and missing optional fields select defaults
instead of aborting the result. -/
theorem fetchFoodSpots_viralPosts_default (env : Env) (cache : RequestCache)
    (query : String) (a b : ℚ) (raw : RawResponse)
    (hmiss : cache (cacheKeyOf query) = none)
    (hk : jsTruthyStr env.apiKey = true) (hu : env.upstream = Except.ok raw)
    (i : ℕ) (hi : i < (jsOrList raw.spots []).length)
    (hvp : ((jsOrList raw.spots []).get ⟨i, hi⟩).viralPosts = none) :
    ∃ hi2 : i < (fetchFoodSpots env cache query a b).res.spots.length,
      ((fetchFoodSpots env cache query a b).res.spots.get ⟨i, hi2⟩).viralPosts =
          [defaultViralPost ((jsOrList raw.spots []).get ⟨i, hi⟩).name i] ∧
        ((fetchFoodSpots env cache query a b).res.spots.get ⟨i, hi2⟩).viralPosts ≠ [] := by
  rw [fetch_res_ok_spots env cache query a b raw hmiss hk hu]
  refine ⟨(by rw [List.length_mapIdx]; exact hi), ?_, ?_⟩
  · rw [List.get_mapIdx _ _ i hi, processedSpot_viralPosts, hvp]
    rfl
  · rw [List.get_mapIdx _ _ i hi, processedSpot_viralPosts, hvp]
    exact List.cons_ne_nil _ _

/-- Witness for C5: the concrete upstream payload `sampleRaw`, whose first
record has no `viralPosts`. -/
theorem fetchFoodSpots_viralPosts_default_witness :
    (emptyCache (cacheKeyOf "cafe") = none ∧ jsTruthyStr sampleEnvKey.apiKey = true ∧
        sampleEnvKey.upstream = Except.ok sampleRaw ∧
        ((jsOrList sampleRaw.spots []).get ⟨0, by decide⟩).viralPosts = none) ∧
      ∃ hi2 : 0 < (fetchFoodSpots sampleEnvKey emptyCache "cafe" 1 2).res.spots.length,
        ((fetchFoodSpots sampleEnvKey emptyCache "cafe" 1 2).res.spots.get ⟨0, hi2⟩).viralPosts =
            [defaultViralPost ((jsOrList sampleRaw.spots []).get ⟨0, by decide⟩).name 0] ∧
          ((fetchFoodSpots sampleEnvKey emptyCache "cafe" 1 2).res.spots.get
              ⟨0, hi2⟩).viralPosts ≠ [] :=
  ⟨⟨rfl, rfl, rfl, rfl⟩,
    fetchFoodSpots_viralPosts_default sampleEnvKey emptyCache "cafe" 1 2 sampleRaw
      rfl rfl rfl 0 (by decide) rfl⟩

/-! ### C6: the mock generator on "kochi" -/

/-- C6: at every instant, `mockSpots "kochi" 9.9312 76.2673` returns the
location name "Kochi, Kerala", the literal center `(9.9312, 76.2673)`, and
the same four named spots at the same fixed offsets from the center. -/
theorem mockSpots_kochi (now : ℕ) :
    (mockSpots "kochi" 9.9312 76.2673 now).locationName = "Kochi, Kerala" ∧
      (mockSpots "kochi" 9.9312 76.2673 now).center = { lat := 9.9312, lng := 76.2673 } ∧
      (mockSpots "kochi" 9.9312 76.2673 now).spots.map FoodSpot.name =
        ["Paragon Restaurant", "Kashi Art Cafe", "Grand Pavilion",
          "District 7 Restro Cafe"] ∧
      (mockSpots "kochi" 9.9312 76.2673 now).spots.map FoodSpot.coordinates =
        [{ lat := 9.9312 + 0.002, lng := 76.2673 - 0.003 },
          { lat := 9.9312 - 0.004, lng := 76.2673 - 0.012 },
          { lat := 9.9312 + 0.005, lng := 76.2673 + 0.002 },
          { lat := 9.9312 - 0.001, lng := 76.2673 + 0.008 }] :=
  ⟨rfl, rfl, rfl, rfl⟩

/-! ### C7: unrecognized queries in mock mode -/

/-- C7: a query containing none of the recognized location substrings keeps
the fallback center, uses the literal query text as the location name, and
yields the four default-branch spots at the fixed offsets from the fallback
coordinate; in particular, with no credential configured,
`fetchFoodSpots "Tokyo"` resolves to location name "Tokyo" and exactly 4
spots. -/
theorem mockSpots_unrecognized :
    (∀ (query : String) (lat lng : ℚ) (now : ℕ),
        jsIncludes (jsToLower query) "paris" = false →
        jsIncludes (jsToLower query) "new york" = false →
        jsIncludes (jsToLower query) "kochi" = false →
        (mockSpots query lat lng now).locationName = query ∧
          (mockSpots query lat lng now).center = { lat := lat, lng := lng } ∧
          (mockSpots query lat lng now).spots.map FoodSpot.coordinates =
            [{ lat := lat + 0.002, lng := lng - 0.003 },
              { lat := lat - 0.004, lng := lng - 0.012 },
              { lat := lat + 0.005, lng := lng + 0.002 },
              { lat := lat - 0.001, lng := lng + 0.008 }] ∧
          (mockSpots query lat lng now).spots.length = 4) ∧
      ∀ (env : Env) (cache : RequestCache) (a b : ℚ),
        jsTruthyStr env.apiKey = false → cache (cacheKeyOf "Tokyo") = none →
        (fetchFoodSpots env cache "Tokyo" a b).res.locationName = "Tokyo" ∧
          (fetchFoodSpots env cache "Tokyo" a b).res.spots.length = 4 := by
  constructor
  · intro query lat lng now h1 h2 h3
    have hkk : (query == "Kochi, Kerala") = false := by
      cases heq : query == "Kochi, Kerala"
      · rfl
      · exfalso
        have hq : query = "Kochi, Kerala" := eq_of_beq heq
        subst hq
        exact absurd h3 (by decide)
    refine ⟨?_, ?_, ?_, ?_⟩ <;>
      simp [mockSpots, h1, h2, h3, hkk]
  · intro env cache a b hk hc
    rw [fetch_res_nokey env cache "Tokyo" a b hc hk]
    exact ⟨rfl, rfl⟩

/-- Witness for C7: the concrete unrecognized query "Lagos" and the
credential-free end-to-end call on "Tokyo". -/
theorem mockSpots_unrecognized_witness :
    (jsIncludes (jsToLower "Lagos") "paris" = false ∧
        jsIncludes (jsToLower "Lagos") "new york" = false ∧
        jsIncludes (jsToLower "Lagos") "kochi" = false) ∧
      ((mockSpots "Lagos" 6 3 9).locationName = "Lagos" ∧
        (mockSpots "Lagos" 6 3 9).center = { lat := 6, lng := 3 } ∧
        (mockSpots "Lagos" 6 3 9).spots.map FoodSpot.coordinates =
          [{ lat := 6 + 0.002, lng := 3 - 0.003 },
            { lat := 6 - 0.004, lng := 3 - 0.012 },
            { lat := 6 + 0.005, lng := 3 + 0.002 },
            { lat := 6 - 0.001, lng := 3 + 0.008 }] ∧
        (mockSpots "Lagos" 6 3 9).spots.length = 4) ∧
      ((fetchFoodSpots sampleEnvNoKey emptyCache "Tokyo" 1 2).res.locationName = "Tokyo" ∧
        (fetchFoodSpots sampleEnvNoKey emptyCache "Tokyo" 1 2).res.spots.length = 4) :=
  ⟨⟨by decide, by decide, by decide⟩,
    mockSpots_unrecognized.1 "Lagos" 6 3 9 (by decide) (by decide) (by decide),
    mockSpots_unrecognized.2 sampleEnvNoKey emptyCache 1 2 rfl rfl⟩

/-! ### C10: truthiness-based coordinate defaulting -/

/-- C10: the upstream path tests coordinates for truthiness, not presence —
an exact-zero spot latitude/longitude is treated as missing and replaced by
the region center plus the jitter draw, and an exact-zero region center
component (resp. empty region name) falls back to the caller's coordinate
(resp. the query), so a legitimate zero value is never preserved. -/
theorem fetchFoodSpots_zero_is_falsy :
    (∀ (env : Env) (rLat rLng : ℚ) (i : ℕ) (item : RawSpot),
        item.latitude = some 0 →
        (processedSpot env rLat rLng i item).coordinates.lat =
          rLat + (env.rand (3 * i) * 0.02 - 0.01)) ∧
      (∀ (env : Env) (rLat rLng : ℚ) (i : ℕ) (item : RawSpot),
        item.longitude = some 0 →
        (processedSpot env rLat rLng i item).coordinates.lng =
          rLng + (env.rand (3 * i + 1) * 0.02 - 0.01)) ∧
      ∀ (env : Env) (cache : RequestCache) (query : String) (a b : ℚ) (raw : RawResponse),
        cache (cacheKeyOf query) = none → jsTruthyStr env.apiKey = true →
        env.upstream = Except.ok raw →
        raw.regionLat = some 0 → raw.regionLng = some 0 → raw.regionName = some "" →
        (fetchFoodSpots env cache query a b).res.center = { lat := a, lng := b } ∧
          (fetchFoodSpots env cache query a b).res.locationName = query := by
  refine ⟨?_, ?_, ?_⟩
  · intro env rLat rLng i item h
    rw [processedSpot_lat, h]
    simp [jsOrNum]
  · intro env rLat rLng i item h
    rw [processedSpot_lng, h]
    simp [jsOrNum]
  · intro env cache query a b raw hmiss hk hu h1 h2 h3
    rw [fetch_res_ok_center env cache query a b raw hmiss hk hu,
      fetch_res_ok_locationName env cache query a b raw hmiss hk hu, h1, h2, h3]
    exact ⟨by simp [jsOrNum], by simp [jsOrStr]⟩

/-- Witness for C10: the concrete payload `sampleRawZero` with zero region
center, empty region name and a zero-coordinate spot. -/
theorem fetchFoodSpots_zero_is_falsy_witness :
    ({ sampleRawSpot with latitude := some 0, longitude := some 0 }.latitude = some 0 ∧
        { sampleRawSpot with latitude := some 0, longitude := some 0 }.longitude = some 0 ∧
        sampleRawZero.regionLat = some 0 ∧ sampleRawZero.regionName = some "") ∧
      (processedSpot sampleEnvZero 10 20 0
            { sampleRawSpot with latitude := some 0, longitude := some 0 }).coordinates.lat =
        10 + (sampleEnvZero.rand 0 * 0.02 - 0.01) ∧
      (processedSpot sampleEnvZero 10 20 0
            { sampleRawSpot with latitude := some 0, longitude := some 0 }).coordinates.lng =
        20 + (sampleEnvZero.rand 1 * 0.02 - 0.01) ∧
      (fetchFoodSpots sampleEnvZero emptyCache "Null Island" 0 0).res.center =
        { lat := 0, lng := 0 } ∧
      (fetchFoodSpots sampleEnvZero emptyCache "Null Island" 0 0).res.locationName =
        "Null Island" :=
  ⟨⟨rfl, rfl, rfl, rfl⟩,
    fetchFoodSpots_zero_is_falsy.1 sampleEnvZero 10 20 0 _ rfl,
    by
      have h := fetchFoodSpots_zero_is_falsy.2.1 sampleEnvZero 10 20 0
        { sampleRawSpot with latitude := some 0, longitude := some 0 } rfl
      simpa using h,
    (fetchFoodSpots_zero_is_falsy.2.2 sampleEnvZero emptyCache "Null Island" 0 0
        sampleRawZero rfl rfl rfl rfl rfl rfl).1,
    (fetchFoodSpots_zero_is_falsy.2.2 sampleEnvZero emptyCache "Null Island" 0 0
        sampleRawZero rfl rfl rfl rfl rfl rfl).2⟩

end FoodiFinder
